import Mathlib

/-!
A shallow embedding, in Lean 4, of the YouTube-analyzer script
`src/main.py` of this repository, together with theorems settling the
frozen claims about it.

Modelling conventions:
* A Python `str` is a `List Char` (Python strings are sequences of
  Unicode code points, which `Char` models exactly).
* Pure string helpers of the script (`clean_text`, `extract_video_id`,
  the chunking inside `create_pdf`) are translated directly.
* Stateful glue around the external collaborators (YouTube API, yt-dlp,
  ffmpeg, Whisper, OpenAI, fpdf, Streamlit) is modelled by environments
  of oracles: each collaborator call is a field giving its result, and
  the orchestration code is translated into a function from such an
  environment to a trace recording which stages ran and what they
  produced.
* Fallible Python code that catches exceptions and returns `None` is
  modelled with `Option`.
-/

namespace YTA

/-- A Python `str`: a sequence of Unicode code points. -/
abbrev Text := List Char

/-- Python `str.isspace` / the character set stripped by `str.strip()`:
ASCII whitespace (TAB..CR, FS..US, space) and the Unicode whitespace
code points (NEL, NBSP, OGHAM SPACE MARK, the EN QUAD..HAIR SPACE range,
LINE/PARAGRAPH SEPARATOR, NARROW NBSP, MEDIUM MATHEMATICAL SPACE,
IDEOGRAPHIC SPACE). -/
def pyIsSpace (c : Char) : Bool :=
  let n := c.toNat
  (9 ≤ n && n ≤ 13) || (28 ≤ n && n ≤ 31) || n == 32 || n == 133 || n == 160 ||
    n == 5760 || (8192 ≤ n && n ≤ 8202) || n == 8232 || n == 8233 ||
    n == 8239 || n == 8287 || n == 12288

/-- A code point the `ascii` codec can encode (Python `text.encode("ascii")`
succeeds exactly when every code point is below 128). -/
def isAsciiChar (c : Char) : Bool := c.toNat < 128

/-- One step bound of `pyReplace`: fuel-indexed so that the recursion is
structural and evaluates by `decide`/`rfl`. Scans left to right; at a
position where the (nonempty) pattern occurs, emits the replacement and
skips past the occurrence, exactly like Python `str.replace` with a
nonempty pattern (every pattern in this file is nonempty). Each step
consumes at least one character, so `fuel = length of the text` never
runs out. -/
def replaceFuel (pat repl : List Char) : Nat → List Char → List Char
  | 0, l => l
  | _ + 1, [] => []
  | fuel + 1, c :: rest =>
    if !pat.isEmpty && pat.isPrefixOf (c :: rest) then
      repl ++ replaceFuel pat repl fuel ((c :: rest).drop pat.length)
    else
      c :: replaceFuel pat repl fuel rest

/-- Python `text.replace(pat, repl)` for a nonempty `pat`. -/
def pyReplace (pat repl s : List Char) : List Char :=
  replaceFuel pat repl s.length s

/-- The `for orig, repl in table.items(): text = text.replace(orig, repl)`
loops of `clean_text`, folded over a table in its insertion order. -/
def applyTable (tbl : List (List Char × List Char)) (s : List Char) : List Char :=
  tbl.foldl (fun acc pr => pyReplace pr.1 pr.2 acc) s

/-- Python `text.strip()`: drop leading whitespace, then trailing
whitespace. -/
def pyStrip (l : List Char) : List Char :=
  ((l.dropWhile pyIsSpace).reverse.dropWhile pyIsSpace).reverse

/-- The `try: text.encode("ascii") / except UnicodeEncodeError:
text = text.encode("ascii", "ignore").decode("ascii")` step of
`clean_text`: if some code point is not ASCII, every non-ASCII code
point is dropped. -/
def asciiPass (l : List Char) : List Char :=
  if l.all isAsciiChar then l else l.filter isAsciiChar

/-- The `replacements` dict of `clean_text` (source lines 135-152), in
insertion order; patterns are written by code point to keep the file
ASCII-clean. -/
def replacements : List (List Char × List Char) := [
  ([Char.ofNat 8217], [Char.ofNat 39]),  -- U+2019
  ([Char.ofNat 8216], [Char.ofNat 39]),  -- U+2018
  ([Char.ofNat 8220], [Char.ofNat 34]),  -- U+201C
  ([Char.ofNat 8221], [Char.ofNat 34]),  -- U+201D
  ([Char.ofNat 8211], "-".data),  -- U+2013
  ([Char.ofNat 8212], "-".data),  -- U+2014
  ([Char.ofNat 8230], "...".data),  -- U+2026
  ([Char.ofNat 8226], "*".data),  -- U+2022
  ([Char.ofNat 183], "*".data),  -- U+00B7
  ([Char.ofNat 171], [Char.ofNat 34]),  -- U+00AB
  ([Char.ofNat 187], [Char.ofNat 34]),  -- U+00BB
  ([Char.ofNat 8249], [Char.ofNat 39]),  -- U+2039
  ([Char.ofNat 8250], [Char.ofNat 39]),  -- U+203A
  ([Char.ofNat 8482], "(TM)".data),  -- U+2122
  ([Char.ofNat 174], "(R)".data),  -- U+00AE
  ([Char.ofNat 169], "(C)".data),  -- U+00A9
  ([Char.ofNat 177], "+/-".data),  -- U+00B1
  ([Char.ofNat 181], "u".data),  -- U+00B5
  ([Char.ofNat 176], " deg".data),  -- U+00B0
  ([Char.ofNat 188], "1/4".data),  -- U+00BC
  ([Char.ofNat 189], "1/2".data),  -- U+00BD
  ([Char.ofNat 190], "3/4".data),  -- U+00BE
  ([Char.ofNat 215], "x".data),  -- U+00D7
  ([Char.ofNat 247], "/".data),  -- U+00F7
  ([Char.ofNat 8240], "0/00".data),  -- U+2030
  ([Char.ofNat 8364], "EUR".data),  -- U+20AC
  ([Char.ofNat 163], "GBP".data),  -- U+00A3
  ([Char.ofNat 165], "JPY".data),  -- U+00A5
  ([Char.ofNat 162], "c".data),  -- U+00A2
  ([Char.ofNat 164], "$".data),  -- U+00A4
  ([Char.ofNat 166], "|".data),  -- U+00A6
  ([Char.ofNat 167], "S".data),  -- U+00A7
  ([Char.ofNat 168], [Char.ofNat 34]),  -- U+00A8
  ([Char.ofNat 170], "a".data),  -- U+00AA
  ([Char.ofNat 172], "-".data),  -- U+00AC
  ([Char.ofNat 175], "-".data),  -- U+00AF
  ([Char.ofNat 180], [Char.ofNat 39]),  -- U+00B4
  ([Char.ofNat 184], ",".data),  -- U+00B8
  ([Char.ofNat 186], "o".data),  -- U+00BA
  ([Char.ofNat 191], "?".data),  -- U+00BF
  ([Char.ofNat 192], "A".data),  -- U+00C0
  ([Char.ofNat 193], "A".data),  -- U+00C1
  ([Char.ofNat 194], "A".data),  -- U+00C2
  ([Char.ofNat 195], "A".data),  -- U+00C3
  ([Char.ofNat 196], "Ae".data),  -- U+00C4
  ([Char.ofNat 197], "A".data),  -- U+00C5
  ([Char.ofNat 198], "AE".data),  -- U+00C6
  ([Char.ofNat 199], "C".data),  -- U+00C7
  ([Char.ofNat 200], "E".data),  -- U+00C8
  ([Char.ofNat 201], "E".data),  -- U+00C9
  ([Char.ofNat 202], "E".data),  -- U+00CA
  ([Char.ofNat 203], "E".data),  -- U+00CB
  ([Char.ofNat 204], "I".data),  -- U+00CC
  ([Char.ofNat 205], "I".data),  -- U+00CD
  ([Char.ofNat 206], "I".data),  -- U+00CE
  ([Char.ofNat 207], "I".data),  -- U+00CF
  ([Char.ofNat 208], "D".data),  -- U+00D0
  ([Char.ofNat 209], "N".data),  -- U+00D1
  ([Char.ofNat 210], "O".data),  -- U+00D2
  ([Char.ofNat 211], "O".data),  -- U+00D3
  ([Char.ofNat 212], "O".data),  -- U+00D4
  ([Char.ofNat 213], "O".data),  -- U+00D5
  ([Char.ofNat 214], "Oe".data),  -- U+00D6
  ([Char.ofNat 216], "O".data),  -- U+00D8
  ([Char.ofNat 217], "U".data),  -- U+00D9
  ([Char.ofNat 218], "U".data),  -- U+00DA
  ([Char.ofNat 219], "U".data),  -- U+00DB
  ([Char.ofNat 220], "Ue".data),  -- U+00DC
  ([Char.ofNat 221], "Y".data),  -- U+00DD
  ([Char.ofNat 222], "TH".data),  -- U+00DE
  ([Char.ofNat 223], "ss".data),  -- U+00DF
  ([Char.ofNat 224], "a".data),  -- U+00E0
  ([Char.ofNat 225], "a".data),  -- U+00E1
  ([Char.ofNat 226], "a".data),  -- U+00E2
  ([Char.ofNat 227], "a".data),  -- U+00E3
  ([Char.ofNat 228], "ae".data),  -- U+00E4
  ([Char.ofNat 229], "a".data),  -- U+00E5
  ([Char.ofNat 230], "ae".data),  -- U+00E6
  ([Char.ofNat 231], "c".data),  -- U+00E7
  ([Char.ofNat 232], "e".data),  -- U+00E8
  ([Char.ofNat 233], "e".data),  -- U+00E9
  ([Char.ofNat 234], "e".data),  -- U+00EA
  ([Char.ofNat 235], "e".data),  -- U+00EB
  ([Char.ofNat 236], "i".data),  -- U+00EC
  ([Char.ofNat 237], "i".data),  -- U+00ED
  ([Char.ofNat 238], "i".data),  -- U+00EE
  ([Char.ofNat 239], "i".data),  -- U+00EF
  ([Char.ofNat 240], "d".data),  -- U+00F0
  ([Char.ofNat 241], "n".data),  -- U+00F1
  ([Char.ofNat 242], "o".data),  -- U+00F2
  ([Char.ofNat 243], "o".data),  -- U+00F3
  ([Char.ofNat 244], "o".data),  -- U+00F4
  ([Char.ofNat 245], "o".data),  -- U+00F5
  ([Char.ofNat 246], "oe".data),  -- U+00F6
  ([Char.ofNat 248], "o".data),  -- U+00F8
  ([Char.ofNat 249], "u".data),  -- U+00F9
  ([Char.ofNat 250], "u".data),  -- U+00FA
  ([Char.ofNat 251], "u".data),  -- U+00FB
  ([Char.ofNat 252], "ue".data),  -- U+00FC
  ([Char.ofNat 253], "y".data),  -- U+00FD
  ([Char.ofNat 254], "th".data),  -- U+00FE
  ([Char.ofNat 255], "y".data)  -- U+00FF
]

/-- The `emoji_replacements` dict of `clean_text` (source lines 159-236),
with Python dict-literal semantics for the duplicated keys (a repeated
key keeps its first position and its last value). -/
def emoji_replacements : List (List Char × List Char) := [
  ([Char.ofNat 127758], "[Globe]".data),  -- U+1F30E
  ([Char.ofNat 127757], "[Globe]".data),  -- U+1F30D
  ([Char.ofNat 127759], "[Globe]".data),  -- U+1F30F
  ([Char.ofNat 128293], "[Fire]".data),  -- U+1F525
  ([Char.ofNat 10084, Char.ofNat 65039], "[Heart]".data),  -- U+2764 U+FE0F
  ([Char.ofNat 9989], "[Check]".data),  -- U+2705
  ([Char.ofNat 9888, Char.ofNat 65039], "[Warning]".data),  -- U+26A0 U+FE0F
  ([Char.ofNat 9889], "[Lightning]".data),  -- U+26A1
  ([Char.ofNat 10024], "[Sparkle]".data),  -- U+2728
  ([Char.ofNat 127919], "[Target]".data),  -- U+1F3AF
  ([Char.ofNat 128200], "[Chart Up]".data),  -- U+1F4C8
  ([Char.ofNat 128201], "[Chart Down]".data),  -- U+1F4C9
  ([Char.ofNat 128202], "[Chart]".data),  -- U+1F4CA
  ([Char.ofNat 128204], "[Pushpin]".data),  -- U+1F4CC
  ([Char.ofNat 128205], "[Round Pushpin]".data),  -- U+1F4CD
  ([Char.ofNat 128221], "[Memo]".data),  -- U+1F4DD
  ([Char.ofNat 128269], "[Left-Pointing Magnifying Glass]".data),  -- U+1F50D
  ([Char.ofNat 128270], "[Right-Pointing Magnifying Glass]".data),  -- U+1F50E
  ([Char.ofNat 128273], "[Key]".data),  -- U+1F511
  ([Char.ofNat 128276], "[Bell]".data),  -- U+1F514
  ([Char.ofNat 128640], "[Rocket]".data),  -- U+1F680
  ([Char.ofNat 128721], "[Stop]".data),  -- U+1F6D1
  ([Char.ofNat 129300], "[Thinking]".data),  -- U+1F914
  ([Char.ofNat 128176], "[Money]".data),  -- U+1F4B0
  ([Char.ofNat 128260], "[Anticlockwise Downwards and Upwards Open Circle Arrows]".data),  -- U+1F504
  ([Char.ofNat 128421, Char.ofNat 65039], "[Computer]".data),  -- U+1F5A5 U+FE0F
  ([Char.ofNat 128433, Char.ofNat 65039], "[Mouse]".data),  -- U+1F5B1 U+FE0F
  ([Char.ofNat 128450, Char.ofNat 65039], "[Folder]".data),  -- U+1F5C2 U+FE0F
  ([Char.ofNat 128466, Char.ofNat 65039], "[Notepad]".data),  -- U+1F5D2 U+FE0F
  ([Char.ofNat 128467, Char.ofNat 65039], "[Calendar]".data),  -- U+1F5D3 U+FE0F
  ([Char.ofNat 128522], "[Smile]".data),  -- U+1F60A
  ([Char.ofNat 128515], "[Happy]".data),  -- U+1F603
  ([Char.ofNat 128526], "[Cool]".data),  -- U+1F60E
  ([Char.ofNat 128591], "[Thanks]".data),  -- U+1F64F
  ([Char.ofNat 128077], "[Thumbs Up]".data),  -- U+1F44D
  ([Char.ofNat 128078], "[Thumbs Down]".data),  -- U+1F44E
  ([Char.ofNat 128079], "[Clap]".data),  -- U+1F44F
  ([Char.ofNat 128161], "[Idea]".data),  -- U+1F4A1
  ([Char.ofNat 128187], "[Laptop]".data),  -- U+1F4BB
  ([Char.ofNat 128190], "[Save]".data),  -- U+1F4BE
  ([Char.ofNat 128193], "[Folder]".data),  -- U+1F4C1
  ([Char.ofNat 128194], "[Open Folder]".data),  -- U+1F4C2
  ([Char.ofNat 128197], "[Calendar]".data),  -- U+1F4C5
  ([Char.ofNat 128198], "[Tear-off Calendar]".data),  -- U+1F4C6
  ([Char.ofNat 128206], "[Paperclip]".data),  -- U+1F4CE
  ([Char.ofNat 128207], "[Ruler]".data),  -- U+1F4CF
  ([Char.ofNat 128208], "[Triangular Ruler]".data),  -- U+1F4D0
  ([Char.ofNat 128210], "[Ledger]".data),  -- U+1F4D2
  ([Char.ofNat 128211], "[Notebook]".data),  -- U+1F4D3
  ([Char.ofNat 128212], "[Notebook with Decorative Cover]".data),  -- U+1F4D4
  ([Char.ofNat 128213], "[Closed Book]".data),  -- U+1F4D5
  ([Char.ofNat 128215], "[Green Book]".data),  -- U+1F4D7
  ([Char.ofNat 128216], "[Blue Book]".data),  -- U+1F4D8
  ([Char.ofNat 128217], "[Orange Book]".data),  -- U+1F4D9
  ([Char.ofNat 128218], "[Books]".data),  -- U+1F4DA
  ([Char.ofNat 128219], "[Name Badge]".data),  -- U+1F4DB
  ([Char.ofNat 128220], "[Scroll]".data),  -- U+1F4DC
  ([Char.ofNat 128222], "[Telephone Receiver]".data),  -- U+1F4DE
  ([Char.ofNat 128223], "[Pager]".data),  -- U+1F4DF
  ([Char.ofNat 128224], "[Fax Machine]".data),  -- U+1F4E0
  ([Char.ofNat 128225], "[Satellite Antenna]".data),  -- U+1F4E1
  ([Char.ofNat 128226], "[Loudspeaker]".data),  -- U+1F4E2
  ([Char.ofNat 128227], "[Megaphone]".data),  -- U+1F4E3
  ([Char.ofNat 128228], "[Outbox Tray]".data),  -- U+1F4E4
  ([Char.ofNat 128229], "[Inbox Tray]".data),  -- U+1F4E5
  ([Char.ofNat 128230], "[Package]".data),  -- U+1F4E6
  ([Char.ofNat 128231], "[E-mail]".data),  -- U+1F4E7
  ([Char.ofNat 128232], "[Incoming Envelope]".data),  -- U+1F4E8
  ([Char.ofNat 128233], "[Envelope with Arrow]".data),  -- U+1F4E9
  ([Char.ofNat 128234], "[Closed Mailbox with Lowered Flag]".data),  -- U+1F4EA
  ([Char.ofNat 128235], "[Closed Mailbox with Raised Flag]".data),  -- U+1F4EB
  ([Char.ofNat 128236], "[Open Mailbox with Raised Flag]".data),  -- U+1F4EC
  ([Char.ofNat 128237], "[Open Mailbox with Lowered Flag]".data),  -- U+1F4ED
  ([Char.ofNat 128238], "[Postbox]".data),  -- U+1F4EE
  ([Char.ofNat 128239], "[Postal Horn]".data),  -- U+1F4EF
  ([Char.ofNat 128240], "[Newspaper]".data),  -- U+1F4F0
  ([Char.ofNat 128241], "[Mobile Phone]".data),  -- U+1F4F1
  ([Char.ofNat 128242], "[Mobile Phone with Rightwards Arrow at Left]".data),  -- U+1F4F2
  ([Char.ofNat 128243], "[Vibration Mode]".data),  -- U+1F4F3
  ([Char.ofNat 128244], "[Mobile Phone Off]".data),  -- U+1F4F4
  ([Char.ofNat 128246], "[Antenna with Bars]".data),  -- U+1F4F6
  ([Char.ofNat 128247], "[Camera]".data),  -- U+1F4F7
  ([Char.ofNat 128248], "[Camera with Flash]".data),  -- U+1F4F8
  ([Char.ofNat 128249], "[Video Camera]".data),  -- U+1F4F9
  ([Char.ofNat 128250], "[Television]".data),  -- U+1F4FA
  ([Char.ofNat 128251], "[Radio]".data),  -- U+1F4FB
  ([Char.ofNat 128252], "[Videocassette]".data),  -- U+1F4FC
  ([Char.ofNat 128253, Char.ofNat 65039], "[Film Projector]".data),  -- U+1F4FD U+FE0F
  ([Char.ofNat 128255], "[Prayer Beads]".data),  -- U+1F4FF
  ([Char.ofNat 128256], "[Twisted Rightwards Arrows]".data),  -- U+1F500
  ([Char.ofNat 128257], "[Clockwise Rightwards and Leftwards Open Circle Arrows]".data),  -- U+1F501
  ([Char.ofNat 128258], "[Clockwise Rightwards and Leftwards Open Circle Arrows with Circled One Overlay]".data),  -- U+1F502
  ([Char.ofNat 128259], "[Clockwise Downwards and Upwards Open Circle Arrows]".data),  -- U+1F503
  ([Char.ofNat 128261], "[Low Brightness Symbol]".data),  -- U+1F505
  ([Char.ofNat 128262], "[High Brightness Symbol]".data),  -- U+1F506
  ([Char.ofNat 128263], "[Speaker with Cancellation Stroke]".data),  -- U+1F507
  ([Char.ofNat 128264], "[Speaker]".data),  -- U+1F508
  ([Char.ofNat 128265], "[Speaker with One Sound Wave]".data),  -- U+1F509
  ([Char.ofNat 128266], "[Speaker with Three Sound Waves]".data),  -- U+1F50A
  ([Char.ofNat 128267], "[Battery]".data),  -- U+1F50B
  ([Char.ofNat 128268], "[Electric Plug]".data),  -- U+1F50C
  ([Char.ofNat 128271], "[Lock with Ink Pen]".data),  -- U+1F50F
  ([Char.ofNat 128272], "[Closed Lock with Key]".data),  -- U+1F510
  ([Char.ofNat 128274], "[Lock]".data),  -- U+1F512
  ([Char.ofNat 128275], "[Open Lock]".data),  -- U+1F513
  ([Char.ofNat 128277], "[Bell with Cancellation Stroke]".data),  -- U+1F515
  ([Char.ofNat 128278], "[Bookmark]".data),  -- U+1F516
  ([Char.ofNat 128279], "[Link Symbol]".data),  -- U+1F517
  ([Char.ofNat 128280], "[Radio Button]".data),  -- U+1F518
  ([Char.ofNat 128281], "[Back with Leftwards Arrow Above]".data),  -- U+1F519
  ([Char.ofNat 128282], "[End with Leftwards Arrow Above]".data),  -- U+1F51A
  ([Char.ofNat 128283], "[On with Exclamation Mark with Left Right Arrow Above]".data),  -- U+1F51B
  ([Char.ofNat 128284], "[Soon with Rightwards Arrow Above]".data),  -- U+1F51C
  ([Char.ofNat 128285], "[Top with Upwards Arrow Above]".data),  -- U+1F51D
  ([Char.ofNat 128286], "[No One Under Eighteen Symbol]".data),  -- U+1F51E
  ([Char.ofNat 128287], "[Keycap Ten]".data),  -- U+1F51F
  ([Char.ofNat 128288], "[Input Symbol for Latin Capital Letters]".data),  -- U+1F520
  ([Char.ofNat 128289], "[Input Symbol for Latin Small Letters]".data),  -- U+1F521
  ([Char.ofNat 128290], "[Input Symbol for Numbers]".data),  -- U+1F522
  ([Char.ofNat 128291], "[Input Symbol for Symbols]".data),  -- U+1F523
  ([Char.ofNat 128292], "[Input Symbol for Latin Letters]".data),  -- U+1F524
  ([Char.ofNat 128294], "[Electric Torch]".data),  -- U+1F526
  ([Char.ofNat 128295], "[Wrench]".data),  -- U+1F527
  ([Char.ofNat 128296], "[Hammer]".data),  -- U+1F528
  ([Char.ofNat 128297], "[Nut and Bolt]".data),  -- U+1F529
  ([Char.ofNat 128298], "[Hocho]".data),  -- U+1F52A
  ([Char.ofNat 128299], "[Pistol]".data),  -- U+1F52B
  ([Char.ofNat 128300], "[Microscope]".data),  -- U+1F52C
  ([Char.ofNat 128301], "[Telescope]".data),  -- U+1F52D
  ([Char.ofNat 128302], "[Crystal Ball]".data),  -- U+1F52E
  ([Char.ofNat 128303], "[Six Pointed Star with Middle Dot]".data),  -- U+1F52F
  ([Char.ofNat 128304], "[Japanese Symbol for Beginner]".data),  -- U+1F530
  ([Char.ofNat 128305], "[Trident Emblem]".data),  -- U+1F531
  ([Char.ofNat 128306], "[Black Square Button]".data),  -- U+1F532
  ([Char.ofNat 128307], "[White Square Button]".data),  -- U+1F533
  ([Char.ofNat 128308], "[Large Red Circle]".data),  -- U+1F534
  ([Char.ofNat 128309], "[Large Blue Circle]".data),  -- U+1F535
  ([Char.ofNat 128310], "[Large Orange Diamond]".data),  -- U+1F536
  ([Char.ofNat 128311], "[Large Blue Diamond]".data),  -- U+1F537
  ([Char.ofNat 128312], "[Small Orange Diamond]".data),  -- U+1F538
  ([Char.ofNat 128313], "[Small Blue Diamond]".data),  -- U+1F539
  ([Char.ofNat 128314], "[Up-Pointing Red Triangle]".data),  -- U+1F53A
  ([Char.ofNat 128315], "[Down-Pointing Red Triangle]".data),  -- U+1F53B
  ([Char.ofNat 128316], "[Up-Pointing Small Red Triangle]".data),  -- U+1F53C
  ([Char.ofNat 128317], "[Down-Pointing Small Red Triangle]".data),  -- U+1F53D
  ([Char.ofNat 128329, Char.ofNat 65039], "[Om Symbol]".data),  -- U+1F549 U+FE0F
  ([Char.ofNat 128330, Char.ofNat 65039], "[Dove of Peace]".data),  -- U+1F54A U+FE0F
  ([Char.ofNat 128331], "[Kaaba]".data),  -- U+1F54B
  ([Char.ofNat 128332], "[Mosque]".data),  -- U+1F54C
  ([Char.ofNat 128333], "[Synagogue]".data),  -- U+1F54D
  ([Char.ofNat 128334], "[Menorah with Nine Branches]".data),  -- U+1F54E
  ([Char.ofNat 128336], "[Clock Face One Oclock]".data),  -- U+1F550
  ([Char.ofNat 128337], "[Clock Face Two Oclock]".data),  -- U+1F551
  ([Char.ofNat 128338], "[Clock Face Three Oclock]".data),  -- U+1F552
  ([Char.ofNat 128339], "[Clock Face Four Oclock]".data),  -- U+1F553
  ([Char.ofNat 128340], "[Clock Face Five Oclock]".data),  -- U+1F554
  ([Char.ofNat 128341], "[Clock Face Six Oclock]".data),  -- U+1F555
  ([Char.ofNat 128342], "[Clock Face Seven Oclock]".data),  -- U+1F556
  ([Char.ofNat 128343], "[Clock Face Eight Oclock]".data),  -- U+1F557
  ([Char.ofNat 128344], "[Clock Face Nine Oclock]".data),  -- U+1F558
  ([Char.ofNat 128345], "[Clock Face Ten Oclock]".data),  -- U+1F559
  ([Char.ofNat 128346], "[Clock Face Eleven Oclock]".data),  -- U+1F55A
  ([Char.ofNat 128347], "[Clock Face Twelve Oclock]".data),  -- U+1F55B
  ([Char.ofNat 128348], "[Clock Face One-Thirty]".data),  -- U+1F55C
  ([Char.ofNat 128349], "[Clock Face Two-Thirty]".data),  -- U+1F55D
  ([Char.ofNat 128350], "[Clock Face Three-Thirty]".data),  -- U+1F55E
  ([Char.ofNat 128351], "[Clock Face Four-Thirty]".data),  -- U+1F55F
  ([Char.ofNat 128352], "[Clock Face Five-Thirty]".data),  -- U+1F560
  ([Char.ofNat 128353], "[Clock Face Six-Thirty]".data),  -- U+1F561
  ([Char.ofNat 128354], "[Clock Face Seven-Thirty]".data),  -- U+1F562
  ([Char.ofNat 128355], "[Clock Face Eight-Thirty]".data),  -- U+1F563
  ([Char.ofNat 128356], "[Clock Face Nine-Thirty]".data),  -- U+1F564
  ([Char.ofNat 128357], "[Clock Face Ten-Thirty]".data),  -- U+1F565
  ([Char.ofNat 128358], "[Clock Face Eleven-Thirty]".data),  -- U+1F566
  ([Char.ofNat 128359], "[Clock Face Twelve-Thirty]".data)  -- U+1F567
]

/-- `clean_text` of `src/main.py` (lines 124-249): empty/falsy input maps
to the empty string; otherwise the standard replacement table is applied,
then the emoji table, then the remaining non-ASCII code points are
dropped, and the result is stripped. The Lean function is total by
construction (the Python function can only raise on a non-`str`
argument, which the `Text` type excludes). -/
def clean_text (text : Text) : Text :=
  if text = [] then []
  else pyStrip (asciiPass (applyTable emoji_replacements (applyTable replacements text)))


/-! ### Generic facts about the sanitization primitives -/

/-- If some character of the pattern fails `P` while every character of the
text satisfies `P`, the pattern never occurs and `replaceFuel` is the
identity. -/
theorem replaceFuel_id (P : Char → Bool) (pat repl : List Char)
    (hpat : pat.any (fun c => !P c) = true) :
    ∀ (fuel : Nat) (s : List Char), s.all P = true →
      replaceFuel pat repl fuel s = s := by
  intro fuel
  induction fuel with
  | zero => intro s _; rfl
  | succ fuel ih =>
    intro s hs
    cases s with
    | nil => rfl
    | cons c rest =>
      have hnp : pat.isPrefixOf (c :: rest) = false := by
        cases h : pat.isPrefixOf (c :: rest) with
        | false => rfl
        | true =>
          exfalso
          have hpre : pat <+: (c :: rest) := List.isPrefixOf_iff_prefix.mp h
          obtain ⟨x, hxmem, hxbad⟩ := List.any_eq_true.mp hpat
          have hxP : P x = true := List.all_eq_true.mp hs x (hpre.sublist.subset hxmem)
          rw [hxP] at hxbad
          simp at hxbad
      have hrest : rest.all P = true := by
        simp only [List.all_cons, Bool.and_eq_true] at hs
        exact hs.2
      simp only [replaceFuel, hnp, Bool.and_false, Bool.false_eq_true, if_false,
        List.cons.injEq, true_and]
      exact ih rest hrest

/-- `pyReplace` is the identity when the pattern cannot occur. -/
theorem pyReplace_id (P : Char → Bool) (pat repl : List Char)
    (hpat : pat.any (fun c => !P c) = true) (s : List Char)
    (hs : s.all P = true) : pyReplace pat repl s = s :=
  replaceFuel_id P pat repl hpat s.length s hs

/-- Folding a whole replacement table is the identity when each pattern has a
character failing `P` and the text satisfies `P` everywhere. -/
theorem applyTable_id (P : Char → Bool) :
    ∀ (tbl : List (List Char × List Char)) (s : List Char),
      tbl.all (fun pr => pr.1.any (fun c => !P c)) = true →
      s.all P = true → applyTable tbl s = s := by
  intro tbl
  induction tbl with
  | nil => intro s _ _; rfl
  | cons pr tl ih =>
    intro s htbl hs
    simp only [List.all_cons, Bool.and_eq_true] at htbl
    simp only [applyTable, List.foldl_cons]
    rw [pyReplace_id P pr.1 pr.2 htbl.1 s hs]
    exact ih s htbl.2 hs

/-- A list whose head (if any) fails `p` is unchanged by `dropWhile p`. -/
theorem dropWhile_eq_self_of_head (p : Char → Bool) (l : List Char)
    (h : ∀ c, l.head? = some c → p c = false) : l.dropWhile p = l := by
  cases l with
  | nil => rfl
  | cons a xs =>
    have := h a rfl
    simp [List.dropWhile_cons, this]

/-- `dropWhile` is idempotent. -/
theorem dropWhile_dropWhile (p : Char → Bool) (m : List Char) :
    (m.dropWhile p).dropWhile p = m.dropWhile p := by
  apply dropWhile_eq_self_of_head
  intro c hc
  have h := List.head?_dropWhile_not p m
  rw [hc] at h
  exact h

/-- A nonempty prefix has the same head. -/
theorem head?_of_isPrefix {l₁ l₂ : List Char} {c : Char} (h : l₁ <+: l₂)
    (hc : l₁.head? = some c) : l₂.head? = some c := by
  obtain ⟨t, rfl⟩ := h
  cases l₁ with
  | nil => simp at hc
  | cons a xs => simpa using hc

/-- The head of a stripped text is not whitespace. -/
theorem head_pyStrip_not (l : List Char) (c : Char)
    (h : (pyStrip l).head? = some c) : pyIsSpace c = false := by
  have hpre : pyStrip l <+: (l.dropWhile pyIsSpace).reverse.reverse :=
    List.reverse_prefix.mpr (List.dropWhile_suffix pyIsSpace)
  rw [List.reverse_reverse] at hpre
  have hh : (l.dropWhile pyIsSpace).head? = some c := head?_of_isPrefix hpre h
  have hd := List.head?_dropWhile_not pyIsSpace l
  rw [hh] at hd
  exact hd

/-- Stripping is idempotent. -/
theorem pyStrip_idempotent (l : List Char) : pyStrip (pyStrip l) = pyStrip l := by
  have h1 : (pyStrip l).dropWhile pyIsSpace = pyStrip l :=
    dropWhile_eq_self_of_head _ _ (fun c hc => head_pyStrip_not l c hc)
  show (((pyStrip l).dropWhile pyIsSpace).reverse.dropWhile pyIsSpace).reverse = pyStrip l
  rw [h1]
  show ((((l.dropWhile pyIsSpace).reverse.dropWhile pyIsSpace).reverse).reverse.dropWhile
    pyIsSpace).reverse = pyStrip l
  rw [List.reverse_reverse, dropWhile_dropWhile]
  rfl

/-- Every character of a stripped text comes from the text. -/
theorem mem_pyStrip {l : List Char} {x : Char} (h : x ∈ pyStrip l) : x ∈ l := by
  have hpre : pyStrip l <+: (l.dropWhile pyIsSpace).reverse.reverse :=
    List.reverse_prefix.mpr (List.dropWhile_suffix pyIsSpace)
  rw [List.reverse_reverse] at hpre
  exact (List.dropWhile_suffix pyIsSpace).sublist.subset (hpre.sublist.subset h)

/-- Stripping preserves an all-characters property. -/
theorem all_pyStrip (P : Char → Bool) {l : List Char} (h : l.all P = true) :
    (pyStrip l).all P = true :=
  List.all_eq_true.mpr fun x hx => List.all_eq_true.mp h x (mem_pyStrip hx)

/-- A text of whitespace only strips to the empty text. -/
theorem pyStrip_nil_of_all (l : List Char) (h : l.all pyIsSpace = true) :
    pyStrip l = [] := by
  have h1 : l.dropWhile pyIsSpace = [] :=
    List.dropWhile_eq_nil_iff.mpr (List.all_eq_true.mp h)
  show ((l.dropWhile pyIsSpace).reverse.dropWhile pyIsSpace).reverse = []
  rw [h1]
  rfl

/-- The encode-or-filter step always equals the plain filter. -/
theorem asciiPass_eq_filter (l : List Char) :
    asciiPass l = l.filter isAsciiChar := by
  unfold asciiPass
  split
  · next h => exact (List.filter_eq_self.mpr (List.all_eq_true.mp h)).symm
  · rfl

/-- The encode-or-filter step leaves only ASCII characters. -/
theorem all_asciiPass (l : List Char) : (asciiPass l).all isAsciiChar = true := by
  rw [asciiPass_eq_filter]
  exact List.all_eq_true.mpr fun x hx => List.of_mem_filter hx

/-- Every pattern of the standard replacement table contains a non-ASCII
character (so the table cannot touch all-ASCII text). -/
theorem std_patterns_nonascii :
    replacements.all (fun pr => pr.1.any (fun c => !isAsciiChar c)) = true := by
  decide

/-- Every pattern of the emoji table contains a non-ASCII character. -/
theorem emoji_patterns_nonascii :
    emoji_replacements.all (fun pr => pr.1.any (fun c => !isAsciiChar c)) = true := by
  decide

/-- Every pattern of the standard table contains a non-whitespace character
(so the table cannot touch whitespace-only text). -/
theorem std_patterns_nonspace :
    replacements.all (fun pr => pr.1.any (fun c => !pyIsSpace c)) = true := by
  decide

/-- Every pattern of the emoji table contains a non-whitespace character. -/
theorem emoji_patterns_nonspace :
    emoji_replacements.all (fun pr => pr.1.any (fun c => !pyIsSpace c)) = true := by
  decide

/-- The output of `clean_text` is all ASCII. -/
theorem ct_ascii_all (x : Text) : (clean_text x).all isAsciiChar = true := by
  by_cases hx : x = []
  · subst hx; rfl
  · rw [clean_text, if_neg hx]
    exact all_pyStrip _ (all_asciiPass _)

/-- The output of `clean_text` is already stripped. -/
theorem ct_stripped (x : Text) : pyStrip (clean_text x) = clean_text x := by
  by_cases hx : x = []
  · subst hx; rfl
  · rw [clean_text, if_neg hx]
    exact pyStrip_idempotent _

/-- `clean_text` fixes any all-ASCII, already-stripped text. -/
theorem clean_text_fixed (y : Text) (hA : y.all isAsciiChar = true)
    (hS : pyStrip y = y) : clean_text y = y := by
  by_cases h0 : y = []
  · rw [h0]; rfl
  · rw [clean_text, if_neg h0,
      applyTable_id isAsciiChar replacements y std_patterns_nonascii hA,
      applyTable_id isAsciiChar emoji_replacements y emoji_patterns_nonascii hA]
    unfold asciiPass
    rw [if_pos hA]
    exact hS

/-- Claim C3: text sanitization is idempotent: for every text `x`,
`clean_text (clean_text x) = clean_text x`. -/
theorem clean_text_idempotent (x : Text) :
    clean_text (clean_text x) = clean_text x :=
  clean_text_fixed (clean_text x) (ct_ascii_all x) (ct_stripped x)

/-- Claim C9: `clean_text` is total (the Lean translation is a total
function, mirroring the Python function, which guards falsy input and uses
the non-raising `encode(..., "ignore")` fallback) and its output is always
representable in the target encoding: every character of the result is
ASCII. -/
theorem clean_text_target_encoding (x : Text) :
    (clean_text x).all isAsciiChar = true :=
  ct_ascii_all x

/-- Claim C10: `clean_text` maps empty (falsy) input to the empty string,
its output never has leading or trailing whitespace, and in particular any
whitespace-only input yields the empty string. -/
theorem clean_text_empty_and_stripped :
    clean_text [] = [] ∧ (∀ x : Text, pyStrip (clean_text x) = clean_text x) ∧
      ∀ x : Text, x.all pyIsSpace = true → clean_text x = [] := by
  refine ⟨rfl, ct_stripped, ?_⟩
  intro x hx
  by_cases hx0 : x = []
  · subst hx0; rfl
  · rw [clean_text, if_neg hx0,
      applyTable_id pyIsSpace replacements x std_patterns_nonspace hx,
      applyTable_id pyIsSpace emoji_replacements x emoji_patterns_nonspace hx]
    apply pyStrip_nil_of_all
    rw [asciiPass_eq_filter]
    exact List.all_eq_true.mpr fun a ha =>
      List.all_eq_true.mp hx a (List.mem_of_mem_filter ha)

/-- Witness for C10: the two-character whitespace text (space, newline) is
sanitized to the empty string. -/
theorem clean_text_empty_and_stripped_witness :
    clean_text [Char.ofNat 32, Char.ofNat 10] = [] :=
  clean_text_empty_and_stripped.2.2 [Char.ofNat 32, Char.ofNat 10] (by decide)

/-! ### Chunked rendering of the transcript (`create_pdf`, lines 375-381) -/

/-- The index sequence of Python `range(i, stop, step)` for `step ≥ 1`,
fuel-indexed (at least one fuel unit per produced index) so that the
recursion is structural and evaluates. -/
def pyRangeAux (stop step : Nat) : Nat → Nat → List Nat
  | 0, _ => []
  | fuel + 1, i => if i < stop then i :: pyRangeAux stop step fuel (i + step) else []

/-- The chunk list of `create_pdf`:
`[transcription[i:i+chunk_size] for i in range(0, len(transcription), chunk_size)]`
with `chunk_size = 1000`; a Python slice `t[i:i+n]` is `(t.drop i).take n`. -/
def transcription_chunks (t : Text) : List Text :=
  (pyRangeAux t.length 1000 t.length 0).map (fun i => (t.drop i).take 1000)

/-- The text blocks `create_pdf` actually lays out: each chunk passes through
`clean_text` on its way into `multi_cell`. -/
def renderedChunks (t : Text) : List Text :=
  (transcription_chunks t).map clean_text

/-- Chunking from index `i` onward: the number of chunks is the ceiling of
the remaining length over `c`, every chunk is at most `c` long, and the
chunks concatenate back to the remaining text. -/
theorem pyRange_chunks_spec (t : Text) (c : Nat) (hc : 0 < c) :
    ∀ (fuel i : Nat), (t.length - i + c - 1) / c ≤ fuel →
      ((pyRangeAux t.length c fuel i).map (fun j => (t.drop j).take c)).length
          = (t.length - i + c - 1) / c
        ∧ (∀ ch ∈ (pyRangeAux t.length c fuel i).map (fun j => (t.drop j).take c),
            ch.length ≤ c)
        ∧ ((pyRangeAux t.length c fuel i).map (fun j => (t.drop j).take c)).flatten
            = t.drop i := by
  intro fuel
  induction fuel with
  | zero =>
    intro i hfuel
    have hle : t.length ≤ i := by
      by_contra hlt
      push_neg at hlt
      have h1 : 1 ≤ (t.length - i + c - 1) / c :=
        (Nat.one_le_div_iff hc).mpr (by omega)
      omega
    have hdiv : (t.length - i + c - 1) / c = 0 := by
      have e : t.length - i + c - 1 = c - 1 := by omega
      rw [e]
      exact Nat.div_eq_of_lt (by omega)
    refine ⟨by simp [pyRangeAux, hdiv], by simp [pyRangeAux], ?_⟩
    simp only [pyRangeAux, List.map_nil, List.flatten_nil]
    exact (List.drop_eq_nil_of_le hle).symm
  | succ fuel ih =>
    intro i hfuel
    by_cases hi : i < t.length
    · have hstep : (t.length - i + c - 1) / c = (t.length - (i + c) + c - 1) / c + 1 := by
        by_cases hmc : c ≤ t.length - i
        · have e1 : t.length - i + c - 1 = (t.length - i - 1) + c := by omega
          have e2 : t.length - (i + c) + c - 1 = t.length - i - 1 := by omega
          rw [e1, Nat.add_div_right _ hc, e2]
        · have e1 : t.length - i + c - 1 = (t.length - i - 1) + c := by omega
          have e2 : t.length - (i + c) + c - 1 = c - 1 := by omega
          rw [e1, Nat.add_div_right _ hc, e2,
            Nat.div_eq_of_lt (show t.length - i - 1 < c by omega),
            Nat.div_eq_of_lt (show c - 1 < c by omega)]
      obtain ⟨ihlen, ihmem, ihjoin⟩ := ih (i + c) (by omega)
      have hunfold : pyRangeAux t.length c (fuel + 1) i
          = i :: pyRangeAux t.length c fuel (i + c) := by
        simp [pyRangeAux, hi]
      rw [hunfold]
      refine ⟨?_, ?_, ?_⟩
      · simp only [List.map_cons, List.length_cons, ihlen, hstep]
      · intro ch hch
        simp only [List.map_cons, List.mem_cons] at hch
        rcases hch with rfl | hch
        · exact List.length_take_le c (t.drop i)
        · exact ihmem ch hch
      · simp only [List.map_cons, List.flatten_cons, ihjoin]
        rw [← List.drop_drop]
        exact List.take_append_drop c (t.drop i)
    · have hunfold : pyRangeAux t.length c (fuel + 1) i = [] := by
        simp [pyRangeAux, hi]
      have hdiv : (t.length - i + c - 1) / c = 0 := by
        have e : t.length - i + c - 1 = c - 1 := by omega
        rw [e]
        exact Nat.div_eq_of_lt (by omega)
      rw [hunfold]
      refine ⟨by simp [hdiv], by simp, ?_⟩
      simp only [List.map_nil, List.flatten_nil]
      exact (List.drop_eq_nil_of_le (by omega)).symm

/-- Claim C4 (amended): rendering a transcript of length `L` with the fixed
chunk size `C = 1000` splits it into exactly `⌈L/C⌉` chunks, each of length
at most `C`, and the concatenation of the raw chunks equals the transcript.
(The rendered chunks are each sanitized with `clean_text` before layout,
which can drop whitespace sitting at a chunk boundary, so their
concatenation equals the sanitized transcript only up to such boundary
whitespace — see the counterexample.) -/
theorem transcription_chunks_spec (t : Text) :
    (transcription_chunks t).length = (t.length + 999) / 1000
      ∧ (∀ ch ∈ transcription_chunks t, ch.length ≤ 1000)
      ∧ (transcription_chunks t).flatten = t := by
  have hbound : (t.length - 0 + 1000 - 1) / 1000 ≤ t.length := by
    by_cases h0 : t.length = 0
    · rw [h0]
    · have e : t.length - 0 + 1000 - 1 = (t.length - 1) + 1000 := by omega
      rw [e, Nat.add_div_right _ (by omega)]
      have := Nat.div_le_self (t.length - 1) 1000
      omega
  obtain ⟨h1, h2, h3⟩ := pyRange_chunks_spec t 1000 (by omega) t.length 0 hbound
  have e : t.length - 0 + 1000 - 1 = t.length + 999 := by omega
  rw [e] at h1
  have h3e : t.drop 0 = t := by simp
  rw [h3e] at h3
  exact ⟨h1, h2, h3⟩

/-- `clean_text` on nonempty all-ASCII text is just `str.strip`. -/
theorem clean_ascii_strip (s : Text) (h : s.all isAsciiChar = true)
    (h0 : s ≠ []) : clean_text s = pyStrip s := by
  rw [clean_text, if_neg h0,
    applyTable_id isAsciiChar replacements s std_patterns_nonascii h,
    applyTable_id isAsciiChar emoji_replacements s emoji_patterns_nonascii h]
  unfold asciiPass
  rw [if_pos h]

/-- The transcript refuting the concatenation part of C4 as stated: 999
letters `a`, a space at index 999 (so the space is the last character of the
first 1000-character chunk), then `b`. -/
def cexTranscript : Text :=
  List.replicate 999 (Char.ofNat 97) ++ [Char.ofNat 32, Char.ofNat 98]

/-- The first chunk of `cexTranscript`. -/
def cexChunk1 : Text := List.replicate 999 (Char.ofNat 97) ++ [Char.ofNat 32]

set_option maxRecDepth 8192 in
/-- Counterexample to C4 as stated: for this 1001-character transcript the
concatenation of the rendered (sanitized) chunks is not the sanitized
transcript — sanitizing the first chunk strips the space at the chunk
boundary, so a character is lost. -/
theorem transcription_chunks_cex :
    (renderedChunks cexTranscript).flatten ≠ clean_text cexTranscript := by
  have hts : clean_text cexTranscript = cexTranscript := by
    rw [clean_ascii_strip cexTranscript (by decide) (by decide)]
    decide
  have hchunks : transcription_chunks cexTranscript
      = [cexChunk1, [Char.ofNat 98]] := by decide
  have hc1 : clean_text cexChunk1 = List.replicate 999 (Char.ofNat 97) := by
    rw [clean_ascii_strip cexChunk1 (by decide) (by decide)]
    decide
  have hc2 : clean_text [Char.ofNat 98] = [Char.ofNat 98] := by
    rw [clean_ascii_strip [Char.ofNat 98] (by decide) (by decide)]
    decide
  intro h
  rw [renderedChunks, hchunks] at h
  simp only [List.map_cons, List.map_nil, hc1, hc2, hts] at h
  have hlen := congrArg List.length h
  simp [cexTranscript] at hlen

/-! ### Identifier extraction (`extract_video_id`, lines 271-274) -/

/-- A character of the regex class `[0-9A-Za-z_-]`. -/
def isVidChar (c : Char) : Bool :=
  (48 ≤ c.toNat && c.toNat ≤ 57) || (65 ≤ c.toNat && c.toNat ≤ 90) ||
    (97 ≤ c.toNat && c.toNat ≤ 122) || c.toNat == 95 || c.toNat == 45

/-- The `[0-9A-Za-z_-]{11}` part of the regex at the current position:
succeeds exactly when the next 11 characters exist and are all in the
class, returning them (this is capture group 1). -/
def tokenChunk (l : List Char) : Option (List Char) :=
  if (l.take 11).length = 11 ∧ (l.take 11).all isVidChar = true then some (l.take 11)
  else none

/-- One attempt of `re.search(r"(?:v=|\/)([0-9A-Za-z_-]{11}).*", url)` at a
fixed start position: the alternation tries `v=` first, then `/` (they can
never both apply, their first characters differ); the trailing `.*` always
matches and binds nothing, so it is dropped. -/
def matchHere (l : List Char) : Option (List Char) :=
  if l.take 2 = ['v', '='] then tokenChunk (l.drop 2)
  else if l.take 1 = ['/'] then tokenChunk (l.drop 1)
  else none

/-- The scan of `re.search`: try each start position, leftmost first. -/
def searchShift : List Char → Option (List Char)
  | [] => none
  | c :: rest =>
    match matchHere (c :: rest) with
    | some t => some t
    | none => searchShift rest

/-- `extract_video_id` of `src/main.py`: run the regex search over the URL
and return group 1, or `None` when there is no match. -/
def extract_video_id (url : Text) : Option Text := searchShift url

/-- Position `j` of `s` is immediately preceded by a path separator `/` or
by the query marker `v=` (the declarative reading of the claim). -/
def markerBefore (s : Text) (j : Nat) : Prop :=
  (1 ≤ j ∧ (s.drop (j - 1)).take 1 = ['/'])
    ∨ (2 ≤ j ∧ (s.drop (j - 2)).take 2 = ['v', '='])

/-- `t` is an 11-character `[0-9A-Za-z_-]` token standing at position `j`
of `s`, immediately preceded by `v=` or `/`. -/
def tokenAt (s : Text) (j : Nat) (t : Text) : Prop :=
  markerBefore s j ∧ t = (s.drop j).take 11 ∧ t.length = 11 ∧ t.all isVidChar = true

instance (s : Text) (j : Nat) : Decidable (markerBefore s j) := by
  unfold markerBefore
  infer_instance

instance (s : Text) (j : Nat) (t : Text) : Decidable (tokenAt s j t) := by
  unfold tokenAt
  infer_instance

theorem take_one_eq (l : List Char) (a : Char) :
    l.take 1 = [a] ↔ ∃ r, l = a :: r := by
  cases l with
  | nil => simp
  | cons c rest => simp [List.take, eq_comm]

theorem take_two_eq (l : List Char) (a b : Char) :
    l.take 2 = [a, b] ↔ ∃ r, l = a :: b :: r := by
  cases l with
  | nil => simp
  | cons c rest =>
    cases rest with
    | nil => simp [List.take]
    | cons d rest2 => simp [List.take, eq_comm, and_assoc]

theorem tokenChunk_eq_some_iff (l t : List Char) :
    tokenChunk l = some t ↔
      t = l.take 11 ∧ t.length = 11 ∧ t.all isVidChar = true := by
  unfold tokenChunk
  split
  · next h =>
    constructor
    · intro he
      injection he with he
      exact ⟨he.symm, he ▸ h.1, he ▸ h.2⟩
    · rintro ⟨he, _, _⟩
      rw [he]
  · next h =>
    constructor
    · intro he
      cases he
    · rintro ⟨he, h1, h2⟩
      exact absurd ⟨he ▸ h1, he ▸ h2⟩ h

theorem matchHere_eq_some_iff (l t : List Char) :
    matchHere l = some t ↔
      (l.take 2 = ['v', '='] ∧ tokenChunk (l.drop 2) = some t)
        ∨ (l.take 1 = ['/'] ∧ tokenChunk (l.drop 1) = some t) := by
  unfold matchHere
  split
  · next h2 =>
    constructor
    · intro hm
      exact Or.inl ⟨h2, hm⟩
    · rintro (⟨_, hm⟩ | ⟨h1, _⟩)
      · exact hm
      · exfalso
        obtain ⟨r, hr⟩ := (take_two_eq l _ _).mp h2
        obtain ⟨r1, hr1⟩ := (take_one_eq l _).mp h1
        rw [hr] at hr1
        injection hr1 with hx _
        exact absurd hx (by decide)
  · next h2 =>
    split
    · next h1 =>
      constructor
      · intro hm
        exact Or.inr ⟨h1, hm⟩
      · rintro (⟨hx, _⟩ | ⟨_, hm⟩)
        · exact absurd hx h2
        · exact hm
    · next h1 =>
      constructor
      · intro hm
        cases hm
      · rintro (⟨hx, _⟩ | ⟨hx, _⟩)
        · exact absurd hx h2
        · exact absurd hx h1

/-- Bridge between a regex attempt at start position `m` and the
declarative token predicate (a `v=` attempt puts the token at `m + 2`, a
`/` attempt at `m + 1`). -/
theorem matchHere_drop_iff (s : Text) (m : Nat) (t : Text) :
    matchHere (s.drop m) = some t ↔
      ((s.drop m).take 2 = ['v', '='] ∧ tokenAt s (m + 2) t)
        ∨ ((s.drop m).take 1 = ['/'] ∧ tokenAt s (m + 1) t) := by
  rw [matchHere_eq_some_iff]
  constructor
  · rintro (⟨h2, hm⟩ | ⟨h1, hm⟩)
    · rw [List.drop_drop, tokenChunk_eq_some_iff] at hm
      obtain ⟨ht, hlen, hall⟩ := hm
      refine Or.inl ⟨h2, Or.inr ⟨by omega, ?_⟩, ht, hlen, hall⟩
      have e : m + 2 - 2 = m := by omega
      rw [e]
      exact h2
    · rw [List.drop_drop, tokenChunk_eq_some_iff] at hm
      obtain ⟨ht, hlen, hall⟩ := hm
      refine Or.inr ⟨h1, Or.inl ⟨by omega, ?_⟩, ht, hlen, hall⟩
      have e : m + 1 - 1 = m := by omega
      rw [e]
      exact h1
  · rintro (⟨h2, _, ht, hlen, hall⟩ | ⟨h1, _, ht, hlen, hall⟩)
    · refine Or.inl ⟨h2, ?_⟩
      rw [List.drop_drop, tokenChunk_eq_some_iff]
      exact ⟨ht, hlen, hall⟩
    · refine Or.inr ⟨h1, ?_⟩
      rw [List.drop_drop, tokenChunk_eq_some_iff]
      exact ⟨ht, hlen, hall⟩

/-- A token is hit by a regex attempt at its own marker position. -/
theorem tokenAt_gives_match (s : Text) (j : Nat) (t : Text) (h : tokenAt s j t) :
    (1 ≤ j ∧ (s.drop (j - 1)).take 1 = ['/'] ∧ matchHere (s.drop (j - 1)) = some t)
      ∨ (2 ≤ j ∧ (s.drop (j - 2)).take 2 = ['v', '=']
          ∧ matchHere (s.drop (j - 2)) = some t) := by
  obtain ⟨hmk, ht, hlen, hall⟩ := h
  rcases hmk with ⟨hj, hsl⟩ | ⟨hj, hsl⟩
  · refine Or.inl ⟨hj, hsl, ?_⟩
    rw [matchHere_drop_iff]
    refine Or.inr ⟨hsl, Or.inl ⟨by omega, ?_⟩, ?_, hlen, hall⟩
    · have e : j - 1 + 1 - 1 = j - 1 := by omega
      rw [e]
      exact hsl
    · have e : j - 1 + 1 = j := by omega
      rw [e]
      exact ht
  · refine Or.inr ⟨hj, hsl, ?_⟩
    rw [matchHere_drop_iff]
    refine Or.inl ⟨hsl, Or.inr ⟨by omega, ?_⟩, ?_, hlen, hall⟩
    · have e : j - 2 + 2 - 2 = j - 2 := by omega
      rw [e]
      exact hsl
    · have e : j - 2 + 2 = j := by omega
      rw [e]
      exact ht

theorem searchShift_cons (c : Char) (rest : List Char) :
    searchShift (c :: rest) =
      match matchHere (c :: rest) with
      | some t => some t
      | none => searchShift rest := rfl

theorem matchHere_nil : matchHere [] = none := by decide

theorem searchShift_none_iff :
    ∀ s : List Char, searchShift s = none ↔ ∀ m, matchHere (s.drop m) = none := by
  intro s
  induction s with
  | nil =>
    constructor
    · intro _ m
      rw [List.drop_nil]
      exact matchHere_nil
    · intro _
      rfl
  | cons c rest ih =>
    constructor
    · intro h m
      cases hm : matchHere (c :: rest) with
      | some t =>
        rw [searchShift_cons, hm] at h
        cases h
      | none =>
        match m with
        | 0 => simpa using hm
        | k + 1 =>
          rw [List.drop_succ_cons]
          have hrest : searchShift rest = none := by
            rw [searchShift_cons, hm] at h
            exact h
          exact (ih.mp hrest) k
    · intro h
      have h0 : matchHere (c :: rest) = none := by simpa using h 0
      rw [searchShift_cons, h0]
      exact ih.mpr fun m => by
        have := h (m + 1)
        rw [List.drop_succ_cons] at this
        exact this

theorem searchShift_some_iff :
    ∀ (s t : List Char), searchShift s = some t ↔
      ∃ m, matchHere (s.drop m) = some t
        ∧ ∀ m' < m, matchHere (s.drop m') = none := by
  intro s
  induction s with
  | nil =>
    intro t
    constructor
    · intro h
      cases h
    · rintro ⟨m, hm, _⟩
      rw [List.drop_nil, matchHere_nil] at hm
      cases hm
  | cons c rest ih =>
    intro t
    constructor
    · intro h
      cases hm : matchHere (c :: rest) with
      | some u =>
        rw [searchShift_cons, hm] at h
        injection h with h
        subst h
        exact ⟨0, by simpa using hm, by omega⟩
      | none =>
        rw [searchShift_cons, hm] at h
        obtain ⟨m, hmk, hmin⟩ := (ih t).mp h
        refine ⟨m + 1, ?_, ?_⟩
        · rw [List.drop_succ_cons]
          exact hmk
        · intro m' hm'
          match m' with
          | 0 => simpa using hm
          | k + 1 =>
            rw [List.drop_succ_cons]
            exact hmin k (by omega)
    · rintro ⟨m, hmk, hmin⟩
      match m with
      | 0 =>
        have h0 : matchHere (c :: rest) = some t := by simpa using hmk
        rw [searchShift_cons, h0]
      | k + 1 =>
        have h0 : matchHere (c :: rest) = none := by simpa using hmin 0 (by omega)
        rw [searchShift_cons, h0]
        apply (ih t).mpr
        rw [List.drop_succ_cons] at hmk
        refine ⟨k, hmk, ?_⟩
        intro m' hm'
        have := hmin (m' + 1) (by omega)
        rw [List.drop_succ_cons] at this
        exact this

/-- When no token preceded by `v=` or `/` exists, extraction returns
`none`, and conversely. -/
theorem extract_none_iff (s : Text) :
    extract_video_id s = none ↔ ∀ j t, ¬ tokenAt s j t := by
  rw [show extract_video_id s = searchShift s from rfl, searchShift_none_iff]
  constructor
  · intro h j t htok
    rcases tokenAt_gives_match s j t htok with ⟨_, _, hm⟩ | ⟨_, _, hm⟩
    · rw [h (j - 1)] at hm
      cases hm
    · rw [h (j - 2)] at hm
      cases hm
  · intro h m
    cases hm : matchHere (s.drop m) with
    | none => rfl
    | some t =>
      exfalso
      rcases (matchHere_drop_iff s m t).mp hm with ⟨_, htok⟩ | ⟨_, htok⟩
      · exact h (m + 2) t htok
      · exact h (m + 1) t htok

/-- Extraction returns `some t` exactly when `t` is the leftmost token
preceded by `v=` or `/`. -/
theorem extract_some_iff (s : Text) (t : Text) :
    extract_video_id s = some t ↔
      ∃ j, tokenAt s j t ∧ ∀ j' t', tokenAt s j' t' → j ≤ j' := by
  rw [show extract_video_id s = searchShift s from rfl, searchShift_some_iff]
  constructor
  · rintro ⟨m, hm, hmin⟩
    rcases (matchHere_drop_iff s m t).mp hm with ⟨hv, htok⟩ | ⟨hsl, htok⟩
    · refine ⟨m + 2, htok, ?_⟩
      intro j' t' htok'
      rcases tokenAt_gives_match s j' t' htok' with ⟨hj1, hsl', hm'⟩ | ⟨hj2, _, hm'⟩
      · have hge : m ≤ j' - 1 := by
          by_contra hlt
          push_neg at hlt
          rw [hmin (j' - 1) hlt] at hm'
          cases hm'
        rcases Nat.lt_or_ge (j' - 1) (m + 1) with hcase | hcase
        · exfalso
          have e : j' - 1 = m := by omega
          rw [e] at hsl'
          obtain ⟨r, hr⟩ := (take_two_eq _ _ _).mp hv
          obtain ⟨r1, hr1⟩ := (take_one_eq _ _).mp hsl'
          rw [hr] at hr1
          injection hr1 with hx _
          exact absurd hx (by decide)
        · omega
      · have hge : m ≤ j' - 2 := by
          by_contra hlt
          push_neg at hlt
          rw [hmin (j' - 2) hlt] at hm'
          cases hm'
        omega
    · refine ⟨m + 1, htok, ?_⟩
      intro j' t' htok'
      rcases tokenAt_gives_match s j' t' htok' with ⟨hj1, _, hm'⟩ | ⟨hj2, _, hm'⟩
      · have hge : m ≤ j' - 1 := by
          by_contra hlt
          push_neg at hlt
          rw [hmin (j' - 1) hlt] at hm'
          cases hm'
        omega
      · have hge : m ≤ j' - 2 := by
          by_contra hlt
          push_neg at hlt
          rw [hmin (j' - 2) hlt] at hm'
          cases hm'
        omega
  · rintro ⟨j, htok, hminTok⟩
    rcases tokenAt_gives_match s j t htok with ⟨hj1, hsl, hm⟩ | ⟨hj2, hv, hm⟩
    · refine ⟨j - 1, hm, ?_⟩
      intro m' hm'
      cases hmc : matchHere (s.drop m') with
      | none => rfl
      | some u =>
        exfalso
        rcases (matchHere_drop_iff s m' u).mp hmc with ⟨hv', htok'⟩ | ⟨_, htok'⟩
        · have hle := hminTok (m' + 2) u htok'
          have e : m' = j - 2 := by omega
          obtain ⟨r, hr⟩ := (take_two_eq _ _ _).mp hv'
          have hdrop : s.drop (j - 1) = Char.ofNat 61 :: r := by
            have e1 : j - 1 = m' + 1 := by omega
            have e2 : s.drop (m' + 1) = (s.drop m').drop 1 := by
              rw [List.drop_drop]
            rw [e1, e2, hr]
            rfl
          obtain ⟨r1, hr1⟩ := (take_one_eq _ _).mp hsl
          rw [hdrop] at hr1
          injection hr1 with hx _
          exact absurd hx (by decide)
        · have hle := hminTok (m' + 1) u htok'
          omega
    · refine ⟨j - 2, hm, ?_⟩
      intro m' hm'
      cases hmc : matchHere (s.drop m') with
      | none => rfl
      | some u =>
        exfalso
        rcases (matchHere_drop_iff s m' u).mp hmc with ⟨_, htok'⟩ | ⟨_, htok'⟩
        · have hle := hminTok (m' + 2) u htok'
          omega
        · have hle := hminTok (m' + 1) u htok'
          omega

/-- Claim C7: for every string containing an 11-character `[0-9A-Za-z_-]`
token immediately preceded by `v=` or `/`, identifier extraction returns
exactly the first such token; for every string containing no such token it
returns no identifier (`None`, the `InvalidInput` signal). -/
theorem extract_video_id_first_token (s : Text) :
    (∀ t, extract_video_id s = some t ↔
        ∃ j, tokenAt s j t ∧ ∀ j' t', tokenAt s j' t' → j ≤ j')
      ∧ (extract_video_id s = none ↔ ∀ j t, ¬ tokenAt s j t) :=
  ⟨fun t => extract_some_iff s t, extract_none_iff s⟩

/-- Witness for C7 at the canonical URL of the spec: extraction returns
`dQw4w9WgXcQ` from `https://www.youtube.com/watch?v=dQw4w9WgXcQ&t=10s`, so
that token (at position 32, after `v=`) is the leftmost one. -/
theorem extract_video_id_first_token_witness :
    ∃ j, tokenAt "https://www.youtube.com/watch?v=dQw4w9WgXcQ&t=10s".data j
        "dQw4w9WgXcQ".data
      ∧ ∀ j' t', tokenAt "https://www.youtube.com/watch?v=dQw4w9WgXcQ&t=10s".data j' t'
          → j ≤ j' :=
  ((extract_video_id_first_token
      "https://www.youtube.com/watch?v=dQw4w9WgXcQ&t=10s".data).1
    "dQw4w9WgXcQ".data).mp (by decide)

/-! ### The single-video pipeline (tab 1, lines 628-691) -/

/-- The metadata record `get_video_details` builds from the API response
(source lines 289-298). -/
structure VideoDetails where
  title : Text
  channel : Text
  published_at : Text
  views : Nat
  likes : Nat
  comments : Nat
  description : Text
  thumbnail : Text

/-- The external collaborators of the single-video pipeline, as result
oracles: `get_video_details` (metadata API, called with the
possibly-absent extracted id; `none` is any of its `None` returns),
`download_youtube_audio` (yt-dlp + ffmpeg; `none` is any failure path that
makes it return `None`), `transcribe_audio` (Whisper), `generate_summary`
(OpenAI) and `create_pdf` (fpdf, returning the temp-PDF path). -/
structure Tab1Env where
  metadataResult : Option Text → Option VideoDetails
  downloadResult : Option Text
  transcribeResult : Text → Option Text
  summaryResult : Text → Option Text
  renderResult : VideoDetails → Text → Text → Text

/-- What one run of the tab-1 block does: which stages ran, what they
produced, and whether `os.unlink(audio_path)` ran (`audioDeleted`), i.e.
whether the audio artifact's backing file was removed. -/
structure Tab1Trace where
  invalidUrlErrorShown : Bool := false
  metadataFetchInvoked : Bool := false
  downloadInvoked : Bool := false
  transcribeInvoked : Bool := false
  summarizeInvoked : Bool := false
  renderInvoked : Bool := false
  audioDeleted : Bool := false
  transcription : Option Text := none
  summary : Option Text := none
  pdfPath : Option Text := none

/-- One run of the tab-1 "Single Video Analysis" block (lines 628-691) on a
fresh session (`st.session_state.video_details` is `None`), with
`buttonPressed` telling whether "Generate Transcription PDF" was clicked.
Faithful control flow: an empty URL does nothing; otherwise
`extract_video_id` runs, a failed extraction only shows an error *without
halting* (there is no `st.stop()` after the `st.error` of line 635), so
`get_video_details(video_id)` is called either way; the download /
transcribe / summarize / render chain of lines 657-675 runs only from
nested success checks, and the audio file is unlinked right after
`transcribe_audio` returns, before its success is inspected. -/
def runTab1 (url : Text) (buttonPressed : Bool) (env : Tab1Env) : Tab1Trace :=
  if url = [] then {}
  else
    match env.metadataResult (extract_video_id url), buttonPressed with
    | some d, true =>
      match env.downloadResult with
      | none =>
        { invalidUrlErrorShown := (extract_video_id url).isNone,
          metadataFetchInvoked := true, downloadInvoked := true }
      | some audioPath =>
        match env.transcribeResult audioPath with
        | none =>
          { invalidUrlErrorShown := (extract_video_id url).isNone,
            metadataFetchInvoked := true, downloadInvoked := true,
            transcribeInvoked := true, audioDeleted := true }
        | some transcription =>
          match env.summaryResult transcription with
          | none =>
            { invalidUrlErrorShown := (extract_video_id url).isNone,
              metadataFetchInvoked := true, downloadInvoked := true,
              transcribeInvoked := true, audioDeleted := true,
              summarizeInvoked := true, transcription := some transcription }
          | some summ =>
            { invalidUrlErrorShown := (extract_video_id url).isNone,
              metadataFetchInvoked := true, downloadInvoked := true,
              transcribeInvoked := true, audioDeleted := true,
              summarizeInvoked := true, renderInvoked := true,
              transcription := some transcription, summary := some summ,
              pdfPath := some (env.renderResult d transcription summ) }
    | _, _ =>
      { invalidUrlErrorShown := (extract_video_id url).isNone,
        metadataFetchInvoked := true }

/-- Claim C1: the single-video pipeline short-circuits at the first failing
stage: if audio acquisition returns no artifact, transcription,
summarization and rendering are never invoked; if transcription returns no
transcript, summarization and rendering are never invoked; if summarization
returns no summary, rendering is never invoked. -/
theorem pipeline_short_circuit (url : Text) (b : Bool) (env : Tab1Env) :
    (env.downloadResult = none →
        (runTab1 url b env).transcribeInvoked = false
          ∧ (runTab1 url b env).summarizeInvoked = false
          ∧ (runTab1 url b env).renderInvoked = false)
      ∧ (∀ a, env.downloadResult = some a → env.transcribeResult a = none →
          (runTab1 url b env).summarizeInvoked = false
            ∧ (runTab1 url b env).renderInvoked = false)
      ∧ (∀ a tr, env.downloadResult = some a → env.transcribeResult a = some tr →
          env.summaryResult tr = none →
          (runTab1 url b env).renderInvoked = false) := by
  by_cases hu : url = []
  · refine ⟨fun _ => ?_, fun a _ _ => ?_, fun a tr _ _ _ => ?_⟩ <;>
      simp [runTab1, hu]
  · cases hm : env.metadataResult (extract_video_id url) with
    | none =>
      refine ⟨fun _ => ?_, fun a _ _ => ?_, fun a tr _ _ _ => ?_⟩ <;>
        cases b <;> simp [runTab1, hu, hm]
    | some d =>
      cases b with
      | false =>
        refine ⟨fun _ => ?_, fun a _ _ => ?_, fun a tr _ _ _ => ?_⟩ <;>
          simp [runTab1, hu, hm]
      | true =>
        refine ⟨fun hd => ?_, fun a hd ht => ?_, fun a tr hd ht hs => ?_⟩
        · simp [runTab1, hu, hm, hd]
        · simp [runTab1, hu, hm, hd, ht]
        · simp [runTab1, hu, hm, hd, ht, hs]

/-- The metadata record used by the concrete witness environments. -/
def wDetails : VideoDetails := ⟨[], [], [], 0, 0, 0, [], []⟩

/-- Witness environment where acquisition fails. -/
def wEnv1 : Tab1Env :=
  ⟨fun _ => some wDetails, none, fun _ => none, fun _ => none, fun _ _ _ => []⟩

/-- Witness environment where acquisition succeeds and transcription
fails. -/
def wEnv2 : Tab1Env :=
  ⟨fun _ => some wDetails, some [Char.ofNat 97], fun _ => none, fun _ => none,
    fun _ _ _ => []⟩

/-- Witness environment where transcription succeeds and summarization
fails. -/
def wEnv3 : Tab1Env :=
  ⟨fun _ => some wDetails, some [Char.ofNat 97], fun _ => some [Char.ofNat 116],
    fun _ => none, fun _ _ _ => []⟩

/-- Witness for C1: three concrete runs, one per failing stage. -/
theorem pipeline_short_circuit_witness :
    ((runTab1 [Char.ofNat 47] true wEnv1).transcribeInvoked = false
        ∧ (runTab1 [Char.ofNat 47] true wEnv1).summarizeInvoked = false
        ∧ (runTab1 [Char.ofNat 47] true wEnv1).renderInvoked = false)
      ∧ ((runTab1 [Char.ofNat 47] true wEnv2).summarizeInvoked = false
        ∧ (runTab1 [Char.ofNat 47] true wEnv2).renderInvoked = false)
      ∧ (runTab1 [Char.ofNat 47] true wEnv3).renderInvoked = false :=
  ⟨(pipeline_short_circuit [Char.ofNat 47] true wEnv1).1 rfl,
   (pipeline_short_circuit [Char.ofNat 47] true wEnv2).2.1 [Char.ofNat 97] rfl rfl,
   (pipeline_short_circuit [Char.ofNat 47] true wEnv3).2.2 [Char.ofNat 97]
     [Char.ofNat 116] rfl rfl rfl⟩

/-- Claim C6: every run that reaches transcription unlinks the audio
artifact's backing file once the transcription stage finishes, whether the
transcription succeeded or failed (the `os.unlink(audio_path)` of line 665
runs before the success of `st.session_state.transcription` is
inspected). -/
theorem audio_cleanup (url : Text) (b : Bool) (env : Tab1Env)
    (h : (runTab1 url b env).transcribeInvoked = true) :
    (runTab1 url b env).audioDeleted = true := by
  by_cases hu : url = []
  · simp [runTab1, hu] at h
  · cases hm : env.metadataResult (extract_video_id url) with
    | none =>
      cases b <;> simp [runTab1, hu, hm] at h
    | some d =>
      cases b with
      | false => simp [runTab1, hu, hm] at h
      | true =>
        cases hd : env.downloadResult with
        | none => simp [runTab1, hu, hm, hd] at h
        | some a =>
          cases ht : env.transcribeResult a with
          | none => simp [runTab1, hu, hm, hd, ht]
          | some tr =>
            cases hs : env.summaryResult tr with
            | none => simp [runTab1, hu, hm, hd, ht, hs]
            | some sm => simp [runTab1, hu, hm, hd, ht, hs]

/-- Witness for C6: a concrete run whose transcription stage runs and
fails; the audio file is deleted all the same. -/
theorem audio_cleanup_witness :
    (runTab1 [Char.ofNat 47] true wEnv2).audioDeleted = true :=
  audio_cleanup [Char.ofNat 47] true wEnv2 rfl

/-- A URL with no extractable identifier (no 11-character token after `v=`
or `/`). -/
def badUrl : Text := "not a valid yt url!".data

/-- Environment for the C2 run: the metadata API finds no item for the
absent id (the real API returns an empty item list for `id=None`), nothing
else succeeds. -/
def cexEnvC2 : Tab1Env :=
  ⟨fun _ => none, none, fun _ => none, fun _ => none, fun _ _ _ => []⟩

/-- Claim C2 (code bug): on an input with no extractable identifier the
tab-1 block shows the invalid-URL error but does not halt: there is no
`st.stop()`/`return` after the `st.error` of line 635, so
`get_video_details(video_id)` is still called with `video_id = None`,
executing a `youtube.videos().list(...).execute()` network call. The later
stages (download, transcription, summarization, rendering) are indeed not
attempted, because the fetch returns no details. -/
theorem invalid_url_still_fetches :
    extract_video_id badUrl = none
      ∧ (runTab1 badUrl true cexEnvC2).invalidUrlErrorShown = true
      ∧ (runTab1 badUrl true cexEnvC2).metadataFetchInvoked = true
      ∧ (runTab1 badUrl true cexEnvC2).downloadInvoked = false
      ∧ (runTab1 badUrl true cexEnvC2).transcribeInvoked = false
      ∧ (runTab1 badUrl true cexEnvC2).summarizeInvoked = false
      ∧ (runTab1 badUrl true cexEnvC2).renderInvoked = false := by
  refine ⟨by decide, ?_, rfl, rfl, rfl, rfl, rfl⟩
  show (extract_video_id badUrl).isNone = true
  decide

/-! ### Audio acquisition validation (`download_youtube_audio`,
lines 75-122, and `transcribe_audio`, lines 252-268) -/

/-- An audio artifact on disk, with the two attributes the claimed
validation is about. -/
structure AudioFile where
  size : Nat
  frames : Nat
deriving DecidableEq

/-- The outcomes of the external steps inside `download_youtube_audio`:
whether `ydl.extract_info` succeeded, whether the downloaded file exists
(`os.path.exists(original_path)`), whether `convert_to_wav` returned a
path, whether the converted file exists, and the artifact sitting at the
converted path. -/
structure AcquireEnv where
  extractOk : Bool
  originalExists : Bool
  convertOk : Bool
  convertedExists : Bool
  converted : AudioFile

/-- `download_youtube_audio` (lines 75-122): the only validation between
downloading and returning the artifact is the pair of `os.path.exists`
checks (a missing file raises `FileNotFoundError`, caught by the outer
`except`, which cleans up and returns `None`; a failed conversion makes
`os.path.exists(None)` raise, with the same effect). The artifact's size
and frame count are never inspected. -/
def download_youtube_audio (env : AcquireEnv) : Option AudioFile :=
  if env.extractOk then
    if env.originalExists then
      if env.convertOk then
        if env.convertedExists then some env.converted
        else none
      else none
    else none
  else none

/-- Claim C5 (amended): before an artifact is handed to transcription, the
acquisition stage validates only that the downloaded file and the converted
file exist; on any such failure the stage returns no artifact (after
attempting cleanup of the temporary files). There is no minimum-size
(~10 KB) check and no frame-count check anywhere, so an existing artifact
is returned for transcription whatever its size or frame count. -/
theorem download_validation (env : AcquireEnv) (f : AudioFile) :
    download_youtube_audio env = some f ↔
      env.extractOk = true ∧ env.originalExists = true ∧ env.convertOk = true
        ∧ env.convertedExists = true ∧ f = env.converted := by
  unfold download_youtube_audio
  split_ifs with h1 h2 h3 h4
  · simp [h1, h2, h3, h4, eq_comm]
  · simp [h4]
  · simp [h3]
  · simp [h2]
  · simp [h1]

/-- A well-formed artifact above the threshold, for the witness run. -/
def wAcq : AcquireEnv := ⟨true, true, true, true, ⟨20000, 5⟩⟩

/-- Witness for C5 (amended): with every existence check passing the
artifact is returned. -/
theorem download_validation_witness :
    download_youtube_audio wAcq = some wAcq.converted :=
  (download_validation wAcq wAcq.converted).mpr ⟨rfl, rfl, rfl, rfl, rfl⟩

/-- An existing but corrupt artifact: 100 bytes, zero decodable frames. -/
def suspectAcq : AcquireEnv := ⟨true, true, true, true, ⟨100, 0⟩⟩

/-- Counterexample to C5 as stated: a 100-byte artifact (far below any
~10 KB threshold) with zero decodable frames passes every check
`download_youtube_audio` makes and is returned for transcription, instead
of being deleted with `ExtractionFailed`. -/
theorem download_validation_cex :
    download_youtube_audio suspectAcq = some suspectAcq.converted
      ∧ suspectAcq.converted.size < 10240
      ∧ suspectAcq.converted.frames = 0 :=
  ⟨rfl, by decide, rfl⟩

/-! ### Channel analysis batch (tab 2, lines 744-766) -/

/-- One entry of `st.session_state.videos_data` (built by
`get_video_details_batch`, lines 461-472); the `transcript`, `summary` and
`tags` keys are only added by the processing loop, so they are `Option`
fields defaulting to `none` (absent). -/
structure ChannelVideo where
  video_id : Text
  title : Text
  published_at : Text
  views : Nat
  likes : Nat
  comments : Nat
  thumbnail : Text
  transcript : Option Text := none
  summary : Option Text := none
  tags : Option Text := none
deriving DecidableEq

/-- The per-video collaborators of the channel loop: `get_transcript`
(returns `None` when the transcript API raises, line 499-506),
`summarize_transcription` and `generate_tags` (each `None` on failure). -/
structure ChannelEnv where
  transcriptResult : Text → Option Text
  summaryResult : Text → Option Text
  tagsResult : Text → Option Text

/-- The body of the processing loop (lines 748-759) for one video: when the
transcript is unavailable the video is left untouched; otherwise the
transcript is recorded and the summary and tags are filled in, with the
literal fallback strings of lines 755 and 759. -/
def processVideo (env : ChannelEnv) (v : ChannelVideo) : ChannelVideo :=
  match env.transcriptResult v.video_id with
  | none => v
  | some tr =>
    { v with
      transcript := some tr
      summary := some (match env.summaryResult tr with
        | some sm => sm
        | none => "No summary available".data)
      tags := some (match env.tagsResult tr with
        | some tg => tg
        | none => "No tags generated".data) }

/-- The channel-analysis batch (lines 744-766): process every video of the
list in order, then build the channel report (`create_channel_pdf` is
always reached; the second component records that the report was
produced). -/
def runChannelAnalysis (env : ChannelEnv) (videos : List ChannelVideo) :
    List ChannelVideo × Bool :=
  (videos.map (processVideo env), true)

/-- Claim C8: one video's missing transcript does not abort the batch: the
batch length is unchanged, the failing video alone is left without
transcript/summary/tags (recorded only against it), every video is still
processed by the same per-video step, and the channel report is still
produced. -/
theorem channel_batch_atomic (env : ChannelEnv) (videos : List ChannelVideo)
    (i : Nat) (v : ChannelVideo) (hv : videos[i]? = some v)
    (hfail : env.transcriptResult v.video_id = none) :
    (runChannelAnalysis env videos).1.length = videos.length
      ∧ (runChannelAnalysis env videos).1[i]? = some v
      ∧ (∀ (j : Nat) (w : ChannelVideo), videos[j]? = some w →
          (runChannelAnalysis env videos).1[j]? = some (processVideo env w))
      ∧ (runChannelAnalysis env videos).2 = true := by
  refine ⟨by simp [runChannelAnalysis], ?_, ?_, rfl⟩
  · show (videos.map (processVideo env))[i]? = some v
    rw [List.getElem?_map, hv]
    show some (processVideo env v) = some v
    unfold processVideo
    rw [hfail]
  · intro j w hw
    show (videos.map (processVideo env))[j]? = some (processVideo env w)
    rw [List.getElem?_map, hw]
    rfl

/-- First witness video, whose transcript is unavailable. -/
def wVid1 : ChannelVideo :=
  { video_id := [Char.ofNat 97], title := [], published_at := [], views := 0,
    likes := 0, comments := 0, thumbnail := [] }

/-- Second witness video, which processes normally. -/
def wVid2 : ChannelVideo :=
  { video_id := [Char.ofNat 98], title := [], published_at := [], views := 0,
    likes := 0, comments := 0, thumbnail := [] }

/-- Witness channel collaborators: no transcript for the first video, a
transcript for everything else. -/
def wChanEnv : ChannelEnv :=
  ⟨fun id => if id = [Char.ofNat 97] then none else some [Char.ofNat 116],
    fun _ => some [Char.ofNat 115], fun _ => none⟩

/-- Witness for C8 on a concrete two-video batch whose first video has no
transcript. -/
theorem channel_batch_atomic_witness :
    (runChannelAnalysis wChanEnv [wVid1, wVid2]).1.length = [wVid1, wVid2].length
      ∧ (runChannelAnalysis wChanEnv [wVid1, wVid2]).1[0]? = some wVid1
      ∧ (∀ (j : Nat) (w : ChannelVideo), [wVid1, wVid2][j]? = some w →
          (runChannelAnalysis wChanEnv [wVid1, wVid2]).1[j]?
            = some (processVideo wChanEnv w))
      ∧ (runChannelAnalysis wChanEnv [wVid1, wVid2]).2 = true :=
  channel_batch_atomic wChanEnv [wVid1, wVid2] 0 wVid1 rfl (by decide)

end YTA
